import Mathlib

/-!
Verification of the riskscan repository's authorization-and-ingestion
pipeline (`app/tiktok/routers.py`), its two caption-scoring strategies
(`app/tiktok/routers.py` and `app/scoring.py` + `app/scanners/text_pii.py`),
and the PKCE helpers.

The Python source is shallowly embedded: pure helpers become Lean functions,
the FastAPI handlers become explicit state-passing functions over the
in-memory PKCE cache and over lists of database rows, and a raised
`HTTPException`/`KeyError` becomes an `Except` error value.  The persistence
session (`app/database.py` is not among the sources) is modelled from the
spec: relational tables are in-memory lists of rows and a staged insert is
visible to later queries of the same request.

Python's `re` regular expressions are embedded by a small backtracking
matcher (leftmost-first alternation, greedy repetition, word boundaries),
restricted to the constructs the seven patterns of the source use.
Character classes are the ASCII readings of `\d`, `\w`, `\s`.
-/

namespace RiskScan

/-! ### A tiny regex engine for the patterns of the source

`Rx` covers exactly the constructs appearing in `LOC_PAT`, `CONTACT_PAT`,
`TIME_PAT`, `WORK_PAT` (`app/tiktok/routers.py`) and `EMAIL_RE`, `PHONE_RE`,
`ADDRESS_RE` (`app/scanners/text_pii.py`): single-character classes,
sequencing, alternation, `?`, `*`/`+` on classes, `{m,n}` on classes, and
the word boundary `\b`.  Matching follows Python `re`: alternation prefers
the left branch, repetition is greedy, `re.search` takes the leftmost
match. -/

inductive Rx where
  | eps : Rx
  | cls (p : Char → Bool) : Rx
  | seq (a b : Rx) : Rx
  | alt (a b : Rx) : Rx
  | opt (a : Rx) : Rx
  | starC (p : Char → Bool) : Rx
  | plusC (p : Char → Bool) : Rx
  | repC (lo extra : Nat) (p : Char → Bool) : Rx
  | wb : Rx

/-- Python `\w` (ASCII reading): letters, digits, underscore. -/
def isWordChar (c : Char) : Bool := c.isAlphanum || c = '_'

def isWordOpt : Option Char → Bool
  | some c => isWordChar c
  | none => false

/-- Python `\b`: true iff exactly one of (previous char, next char) is a
word character; the ends of the string count as non-word. -/
def wordBoundary (prev : Option Char) (s : List Char) : Bool :=
  isWordOpt prev != isWordOpt s.head?

/-- Continuation-passing greedy Kleene star over a character class:
consume as many `p`-characters as possible, backtracking into `k`. -/
def starCont (p : Char → Bool) : Option Char → List Char →
    (Option Char → List Char → Option (Option Char × List Char)) →
    Option (Option Char × List Char)
  | prev, [], k => k prev []
  | prev, c :: cs, k =>
      (if p c then starCont p (some c) cs k else none) <|> k prev (c :: cs)

/-- Greedy bounded repetition `p{lo, lo+extra}` in continuation style. -/
def repCont (p : Char → Bool) : Nat → Nat → Option Char → List Char →
    (Option Char → List Char → Option (Option Char × List Char)) →
    Option (Option Char × List Char)
  | 0, 0, prev, s, k => k prev s
  | 0, e + 1, prev, s, k =>
      (match s with
       | c :: cs => if p c then repCont p 0 e (some c) cs k else none
       | [] => none) <|> k prev s
  | lo + 1, e, prev, s, k =>
      match s with
      | c :: cs => if p c then repCont p lo e (some c) cs k else none
      | [] => none

/-- Backtracking matcher.  `mat r prev s k` tries to match `r` at the start
of `s` (with `prev` the character just before `s`, for `\b`), calling the
continuation `k` with the updated previous character and the rest of the
input; the first success in Python's preference order wins. -/
def mat : Rx → Option Char → List Char →
    (Option Char → List Char → Option (Option Char × List Char)) →
    Option (Option Char × List Char)
  | .eps, prev, s, k => k prev s
  | .cls p, _, s, k =>
      match s with
      | [] => none
      | c :: cs => if p c then k (some c) cs else none
  | .seq a b, prev, s, k => mat a prev s (fun p2 s2 => mat b p2 s2 k)
  | .alt a b, prev, s, k => mat a prev s k <|> mat b prev s k
  | .opt a, prev, s, k => mat a prev s k <|> k prev s
  | .starC p, prev, s, k => starCont p prev s k
  | .plusC p, _, s, k =>
      match s with
      | [] => none
      | c :: cs => if p c then starCont p (some c) cs k else none
  | .repC lo e p, prev, s, k => repCont p lo e prev s k
  | .wb, prev, s, k => if wordBoundary prev s then k prev s else none

/-- `re.search` from a given position: try to match here, else advance one
character.  Returns `(matched, prevAtEnd, rest)` for the leftmost match. -/
def searchFrom (r : Rx) : Option Char → List Char →
    Option (List Char × Option Char × List Char)
  | prev, s =>
      match mat r prev s (fun p2 rest => some (p2, rest)) with
      | some (p2, rest) => some (s.take (s.length - rest.length), p2, rest)
      | none =>
          match s with
          | [] => none
          | c :: cs => searchFrom r (some c) cs

/-- Truthiness of Python `PAT.search(s)`. -/
def rxSearch (r : Rx) (s : String) : Bool := (searchFrom r none s.data).isSome

/-- Python `PAT.findall(s)` (all patterns used with `findall` in the source
have no capturing groups, so `findall` returns whole matches); the fuel
argument bounds the number of matches by the input length. -/
def findallGo (r : Rx) : Nat → Option Char → List Char → List (List Char)
  | 0, _, _ => []
  | fuel + 1, prev, s =>
      match searchFrom r prev s with
      | none => []
      | some (m, p2, rest) =>
          if rest.length < s.length then m :: findallGo r fuel p2 rest
          else [m]

def findall (r : Rx) (s : String) : List String :=
  (findallGo r (s.data.length + 1) none s.data).map (fun l => String.mk l)

/-! ### The seven patterns, transliterated from the source regexes -/

/-- A case-insensitive literal character (patterns compiled with `re.I`). -/
def chrCI (c : Char) : Rx := .cls (fun x => x.toLower = c.toLower)

/-- A case-sensitive literal character. -/
def chrCS (c : Char) : Rx := .cls (fun x => x = c)

def litCI (s : String) : Rx := s.data.foldr (fun c r => .seq (chrCI c) r) .eps

def altList : Rx → List Rx → Rx
  | r, [] => r
  | r, x :: xs => .alt r (altList x xs)

def isSpaceChar (c : Char) : Bool := c.isWhitespace

def isDashDotSpace (c : Char) : Bool :=
  c = '-' || c = '.' || isSpaceChar c

/-- Python `.` without `re.DOTALL`: any character except a newline. -/
def isAnyNoNL (c : Char) : Bool := c != '\n'

/-- `LOC_PAT = \b(UNCC|Charlotte|CLT|Uptown|South End|NoDa|Plaza Midwood|📍|\d{3,5}\s+\w+)\b`, `re.I` -/
def LOC_PAT : Rx :=
  .seq .wb (.seq
    (altList (litCI "UNCC")
      [litCI "Charlotte", litCI "CLT", litCI "Uptown", litCI "South End",
       litCI "NoDa", litCI "Plaza Midwood",
       .cls (fun c => c = Char.ofNat 128205),
       .seq (.repC 3 2 Char.isDigit)
         (.seq (.plusC isSpaceChar) (.plusC isWordChar))])
    .wb)

/-- `CONTACT_PAT = (@\w+|\b\d{3}[-.\s]?\d{3}[-.\s]?\d{4}\b|\b\w+@\w+\.\w+\b)`, `re.I` -/
def CONTACT_PAT : Rx :=
  altList
    (.seq (chrCS '@') (.plusC isWordChar))
    [.seq .wb (.seq (.repC 3 0 Char.isDigit) (.seq (.opt (.cls isDashDotSpace))
       (.seq (.repC 3 0 Char.isDigit) (.seq (.opt (.cls isDashDotSpace))
         (.seq (.repC 4 0 Char.isDigit) .wb))))),
     .seq .wb (.seq (.plusC isWordChar) (.seq (chrCS '@')
       (.seq (.plusC isWordChar) (.seq (chrCS '.')
         (.seq (.plusC isWordChar) .wb)))))]

/-- `TIME_PAT = \b(mon|tue|wed|thu|fri|sat|sun)\b.*\b(\d{1,2}(:\d{2})?\s?(am|pm))|\bevery\b|\btonight\b`, `re.I` -/
def TIME_PAT : Rx :=
  altList
    (.seq .wb (.seq
       (altList (litCI "mon")
         [litCI "tue", litCI "wed", litCI "thu", litCI "fri", litCI "sat",
          litCI "sun"])
       (.seq .wb (.seq (.starC isAnyNoNL) (.seq .wb
         (.seq (.repC 1 1 Char.isDigit)
           (.seq (.opt (.seq (chrCS ':') (.repC 2 0 Char.isDigit)))
             (.seq (.opt (.cls isSpaceChar))
               (.alt (litCI "am") (litCI "pm"))))))))))
    [.seq .wb (.seq (litCI "every") .wb),
     .seq .wb (.seq (litCI "tonight") .wb)]

/-- `WORK_PAT = \b(work|shift|on duty|campus job|host|bartend)\b`, `re.I` -/
def WORK_PAT : Rx :=
  .seq .wb (.seq
    (altList (litCI "work")
      [litCI "shift", litCI "on duty", litCI "campus job", litCI "host",
       litCI "bartend"])
    .wb)

def isEmailLocalChar (c : Char) : Bool :=
  c.isAlpha || c.isDigit || c = '.' || c = '_' || c = '%' || c = '+' || c = '-'

def isEmailDomainChar (c : Char) : Bool :=
  c.isAlpha || c.isDigit || c = '.' || c = '-'

/-- `EMAIL_RE = \b[A-Za-z0-9._%+-]+@[A-Za-z0-9.-]+\.[A-Za-z]{2,}\b` -/
def EMAIL_RE : Rx :=
  .seq .wb (.seq (.plusC isEmailLocalChar) (.seq (chrCS '@')
    (.seq (.plusC isEmailDomainChar) (.seq (chrCS '.')
      (.seq (.repC 2 0 Char.isAlpha) (.seq (.starC Char.isAlpha) .wb))))))

/-- `PHONE_RE = \b(?:\+?1[-.\s]?)?(?:\(?\d{3}\)?[-.\s]?)?\d{3}[-.\s]?\d{4}\b` -/
def PHONE_RE : Rx :=
  .seq .wb (.seq
    (.opt (.seq (.opt (chrCS '+')) (.seq (chrCS '1') (.opt (.cls isDashDotSpace)))))
    (.seq
      (.opt (.seq (.opt (chrCS '(')) (.seq (.repC 3 0 Char.isDigit)
        (.seq (.opt (chrCS ')')) (.opt (.cls isDashDotSpace))))))
      (.seq (.repC 3 0 Char.isDigit) (.seq (.opt (.cls isDashDotSpace))
        (.seq (.repC 4 0 Char.isDigit) .wb)))))

def isAddrWordChar (c : Char) : Bool :=
  c.isAlpha || c.isDigit || c = '.' || c = Char.ofNat 39 || c = '-'

/-- `ADDRESS_RE = \b\d{1,5}\s+[A-Za-z0-9.'-]+\s+(?:St|Street|Ave|Avenue|Rd|Road|Blvd|Lane|Ln|Drive|Dr|Court|Ct)\b`, `re.I` -/
def ADDRESS_RE : Rx :=
  .seq .wb (.seq (.repC 1 4 Char.isDigit) (.seq (.plusC isSpaceChar)
    (.seq (.plusC isAddrWordChar) (.seq (.plusC isSpaceChar)
      (.seq
        (altList (litCI "St")
          [litCI "Street", litCI "Ave", litCI "Avenue", litCI "Rd",
           litCI "Road", litCI "Blvd", litCI "Lane", litCI "Ln",
           litCI "Drive", litCI "Dr", litCI "Court", litCI "Ct"])
        .wb)))))

/-! ### SHA-256 and unpadded base64url, for `_generate_pkce_pair`

`hashlib.sha256` and `base64.urlsafe_b64encode` are standard-library calls;
they are embedded as executable Lean functions over byte lists (`List Nat`,
each entry < 256), words being `Nat` reduced mod `2^32`. -/

def w32 (n : Nat) : Nat := n % 4294967296

def rotr32 (n k : Nat) : Nat := n / 2 ^ k + n % 2 ^ k * 2 ^ (32 - k)

def shr32 (n k : Nat) : Nat := n / 2 ^ k

def bigSigma0 (x : Nat) : Nat := rotr32 x 2 ^^^ rotr32 x 13 ^^^ rotr32 x 22

def bigSigma1 (x : Nat) : Nat := rotr32 x 6 ^^^ rotr32 x 11 ^^^ rotr32 x 25

def smallSigma0 (x : Nat) : Nat := rotr32 x 7 ^^^ rotr32 x 18 ^^^ shr32 x 3

def smallSigma1 (x : Nat) : Nat := rotr32 x 17 ^^^ rotr32 x 19 ^^^ shr32 x 10

/-- The 64 SHA-256 round constants (FIPS 180-4 §4.2.2), in decimal. -/
def sha256K : List Nat :=
  [1116352408, 1899447441, 3049323471, 3921009573, 961987163,
   1508970993, 2453635748, 2870763221, 3624381080, 310598401,
   607225278, 1426881987, 1925078388, 2162078206, 2614888103,
   3248222580, 3835390401, 4022224774, 264347078, 604807628,
   770255983, 1249150122, 1555081692, 1996064986, 2554220882,
   2821834349, 2952996808, 3210313671, 3336571891, 3584528711,
   113926993, 338241895, 666307205, 773529912, 1294757372,
   1396182291, 1695183700, 1986661051, 2177026350, 2456956037,
   2730485921, 2820302411, 3259730800, 3345764771, 3516065817,
   3600352804, 4094571909, 275423344, 430227734, 506948616,
   659060556, 883997877, 958139571, 1322822218, 1537002063,
   1747873779, 1955562222, 2024104815, 2227730452, 2361852424,
   2428436474, 2756734187, 3204031479, 3329325298]

/-- The initial SHA-256 hash state (FIPS 180-4 §5.3.3), in decimal. -/
def sha256H0 : List Nat :=
  [1779033703, 3144134277, 1013904242, 2773480762, 1359893119,
   2600822924, 528734635, 1541459225]

/-- Big-endian 8-byte encoding of the bit length. -/
def be8 (n : Nat) : List Nat :=
  [n / 2 ^ 56 % 256, n / 2 ^ 48 % 256, n / 2 ^ 40 % 256, n / 2 ^ 32 % 256,
   n / 2 ^ 24 % 256, n / 2 ^ 16 % 256, n / 2 ^ 8 % 256, n % 256]

def sha256pad (msg : List Nat) : List Nat :=
  let z := (55 + 64 - msg.length % 64) % 64
  msg ++ [128] ++ List.replicate z 0 ++ be8 (msg.length * 8)

def toWordsBE : List Nat → List Nat
  | b1 :: b2 :: b3 :: b4 :: rest =>
      (((b1 * 256 + b2) * 256 + b3) * 256 + b4) :: toWordsBE rest
  | _ => []

def extendW (w : Array Nat) : Array Nat :=
  (List.range 48).foldl
    (fun w i =>
      w.push (w32 (smallSigma1 (w.getD (i + 14) 0) + w.getD (i + 9) 0 +
        smallSigma0 (w.getD (i + 1) 0) + w.getD i 0)))
    w

def sha256round (st : List Nat) (kw : Nat) : List Nat :=
  match st with
  | [a, b, c, d, e, f, g, h] =>
      let t1 := w32 (h + bigSigma1 e + ((e &&& f) ^^^ ((4294967295 ^^^ e) &&& g)) + kw)
      let t2 := w32 (bigSigma0 a + ((a &&& b) ^^^ (a &&& c) ^^^ (b &&& c)))
      [w32 (t1 + t2), a, b, c, w32 (d + t1), e, f, g]
  | st => st

def sha256block (hs : List Nat) (block : List Nat) : List Nat :=
  let w := extendW (toWordsBE block).toArray
  let kw := (sha256K.zip w.toList).map (fun p => w32 (p.1 + p.2))
  let st := kw.foldl sha256round hs
  (hs.zip st).map (fun p => w32 (p.1 + p.2))

def chunks64 : List Nat → List (List Nat)
  | [] => []
  | c :: rest => ((c :: rest).take 64) :: chunks64 (rest.drop 63)
termination_by l => l.length
decreasing_by simp [List.length_drop]; omega

/-- SHA-256 digest (32 bytes) of a byte string. -/
def sha256 (msg : List Nat) : List Nat :=
  let hs := (chunks64 (sha256pad msg)).foldl sha256block sha256H0
  hs.foldr
    (fun h acc => h / 2 ^ 24 % 256 :: h / 2 ^ 16 % 256 :: h / 2 ^ 8 % 256 :: h % 256 :: acc)
    []

/-- The base64url alphabet (RFC 4648 §5). -/
def b64Alphabet : List Char :=
  "ABCDEFGHIJKLMNOPQRSTUVWXYZabcdefghijklmnopqrstuvwxyz0123456789-_".data

def b64Char (n : Nat) : Char := b64Alphabet.getD n 'A'

/-- `base64.urlsafe_b64encode(bs).rstrip(b"=")`: emitting no padding
character is the same as padding and then stripping the `=` signs. -/
def b64urlNoPadChars : List Nat → List Char
  | [] => []
  | [b1] => [b64Char (b1 / 4), b64Char (b1 % 4 * 16)]
  | [b1, b2] => [b64Char (b1 / 4), b64Char (b1 % 4 * 16 + b2 / 16), b64Char (b2 % 16 * 4)]
  | b1 :: b2 :: b3 :: rest =>
      b64Char (b1 / 4) :: b64Char (b1 % 4 * 16 + b2 / 16) ::
      b64Char (b2 % 16 * 4 + b3 / 64) :: b64Char (b3 % 64) :: b64urlNoPadChars rest

def b64urlNoPad (bs : List Nat) : String := String.mk (b64urlNoPadChars bs)

/-- UTF-8 bytes of a string; the strings hashed by the source (base64url
outputs of `secrets.token_urlsafe`) are ASCII, where UTF-8 is the identity
on code points. -/
def utf8Bytes (s : String) : List Nat := s.data.map Char.toNat

/-- `secrets.token_urlsafe(nbytes)`: the unpadded base64url encoding of the
random bytes (CPython implementation). The randomness is passed in
explicitly. -/
def token_urlsafe (randomBytes : List Nat) : String := b64urlNoPad randomBytes

/-- `_generate_pkce_pair` (app/tiktok/routers.py:32-40), with the 64 random
bytes drawn by `secrets.token_urlsafe(64)` passed in explicitly.
Returns `(code_verifier, code_challenge)`. -/
def generate_pkce_pair (randomBytes : List Nat) : String × String :=
  let code_verifier := token_urlsafe randomBytes
  let code_challenge := b64urlNoPad (sha256 (utf8Bytes code_verifier))
  (code_verifier, code_challenge)

/-! ### The PKCE session store

`PKCE_CACHE: dict[str, str]` (app/tiktok/routers.py:43) maps `state` to
`code_verifier`.  It is a plain in-memory dict: entries carry no creation
time and no expiry.  The dict is modelled as an association list with
Python dict semantics: assignment replaces the value of an existing key in
place or appends a new key, `pop` removes the key. -/

abbrev PkceCache := List (String × String)

/-- `PKCE_CACHE[state] = code_verifier`. -/
def cacheSet (cache : PkceCache) (state v : String) : PkceCache :=
  if cache.any (fun p => p.1 = state) then
    cache.map (fun p => if p.1 = state then (state, v) else p)
  else cache ++ [(state, v)]

/-- `PKCE_CACHE.pop(state, None)`: the looked-up value (if any) and the
cache with the key removed. -/
def cachePop (cache : PkceCache) (state : String) : Option String × PkceCache :=
  match cache.find? (fun p => p.1 = state) with
  | some p => (some p.2, cache.filter (fun q => q.1 ≠ state))
  | none => (none, cache)

/-! ### The platform-integration Detection & Scoring Engine
(`_score_caption`, `_recs_from_detections`, app/tiktok/routers.py:59-86) -/

structure ScoreResult where
  score : Nat
  band : String
  caption_length : Nat
  ocr_cover_text : Option String
  detections : List String
deriving DecidableEq

/-- `_score_caption` (app/tiktok/routers.py:64-74).  The handlers call it
with a `str`; `None` is kept in the domain because the function guards
`if not caption`, which catches both `None` and the empty string. -/
def scoreCaption : Option String → ScoreResult
  | none => ⟨0, "low", 0, none, []⟩
  | some caption =>
    if caption = "" then ⟨0, "low", 0, none, []⟩
    else
      let sd0 : Nat × List String := (0, [])
      let sd1 := if rxSearch LOC_PAT caption then
        (sd0.1 + 40, sd0.2 ++ ["possible_location"]) else sd0
      let sd2 := if rxSearch CONTACT_PAT caption then
        (sd1.1 + 25, sd1.2 ++ ["contact_info"]) else sd1
      let sd3 := if rxSearch TIME_PAT caption then
        (sd2.1 + 20, sd2.2 ++ ["schedule_time"]) else sd2
      let sd4 := if rxSearch WORK_PAT caption then
        (sd3.1 + 15, sd3.2 ++ ["workplace"]) else sd3
      let band := if sd4.1 < 20 then "low" else if sd4.1 < 50 then "medium" else "high"
      ⟨sd4.1, band, caption.length, none, sd4.2⟩

/-- `_recs_from_detections` (app/tiktok/routers.py:76-86). -/
def recsFromDetections (detections : List String) : List String :=
  let r0 : List String := []
  let r1 := if detections.contains "possible_location" || detections.contains "schedule_time"
    then r0 ++ ["Remove or generalize exact locations and schedules in captions."] else r0
  let r2 := if detections.contains "contact_info"
    then r1 ++ ["Remove phone, email, or @handles from public captions."] else r1
  let r3 := if !detections.isEmpty
    then r2 ++ ["Tighten TikTok privacy settings for past posts (friends-only or private)."]
    else r2
  let r4 := if r3.isEmpty
    then ["No issues detected. Keep captions generic and avoid contact/location details."]
    else r3
  r4.take 4

/-! ### The direct-upload scoring mode
(`score_from_detections`, app/scoring.py; `scan_caption`,
app/scanners/text_pii.py)

The source's weights are floats, but every value involved
(20.0/30.0/40.0 times `min(count, 3)`, summed) is a small integer on which
float arithmetic is exact, so `Nat` is a faithful carrier.  The source's
Python dict of counts is modelled as a valuation together with the
insertion-ordered key list; the human-readable `whys` strings returned
alongside the score are not modelled (no claim mentions them). -/

structure PyCounts where
  val : String → Nat
  keys : List String

/-- `counts = {"email":0,"phone":0,"address":0,"gps":0}` -/
def countsInit : PyCounts := ⟨fun _ => 0, ["email", "phone", "address", "gps"]⟩

/-- `counts[d_type] = counts.get(d_type, 0) + 1` -/
def countsBump (cs : PyCounts) (t : String) : PyCounts :=
  ⟨fun k => if k = t then cs.val t + 1 else cs.val k,
   if cs.keys.contains t then cs.keys else cs.keys ++ [t]⟩

/-- `WEIGHTS.get(k, 0.0)` with `WEIGHTS = {"email":20.0, "phone":20.0,
"address":30.0, "gps":40.0}`. -/
def WEIGHTS (k : String) : Nat :=
  if k = "email" then 20 else if k = "phone" then 20
  else if k = "address" then 30 else if k = "gps" then 40 else 0

/-- `score_from_detections` (app/scoring.py), returning `(total, band)`. -/
def score_from_detections (dets : List (String × String)) : Nat × String :=
  let counts := dets.foldl (fun cs d => countsBump cs d.1) countsInit
  let total := counts.keys.foldl
    (fun acc k => if counts.val k > 0 then acc + WEIGHTS k * min (counts.val k) 3 else acc) 0
  let band0 := "LOW"
  let band1 := if total ≥ 60 then "MEDIUM" else band0
  let band2 := if total ≥ 90 then "HIGH" else band1
  (total, band2)

/-- `scan_caption` (app/scanners/text_pii.py:6-11): `findall` each pattern
in order email, phone, address, tagging each match. -/
def scan_caption (caption : String) : List (String × String) :=
  (findall EMAIL_RE caption).map (fun m => ("email", m)) ++
  (findall PHONE_RE caption).map (fun m => ("phone", m)) ++
  (findall ADDRESS_RE caption).map (fun m => ("address", m))

/-! ### OAuth configuration, callback and identity upsert
(app/tiktok/routers.py:20-22, 100-166)

A FastAPI handler either returns a value or raises; a raised
`HTTPException(status, detail)` and an uncaught `KeyError(key)` (which
FastAPI surfaces as a 500 without the upstream response) become the two
error constructors. -/

structure Config where
  clientKey : String
  clientSecret : String
  redirectUri : String
deriving DecidableEq

/-- `os.getenv` defaults of app/tiktok/routers.py:20-22: the placeholder
configuration used when no environment is supplied. -/
def defaultConfig : Config := ⟨"xxx", "xxx", "http://localhost:8000/tiktok/callback"⟩

inductive PyErr where
  | httpException (status : Nat) (detail : String)
  | keyError (key : String)
deriving DecidableEq

/-- The query parameters of the authorization redirect built by
`_build_auth_url` (app/tiktok/routers.py:45-56); the percent-encoding of
the assembled URL string is not modelled. -/
structure AuthUrl where
  client_key : String
  response_type : String
  scope : String
  redirect_uri : String
  state : String
  code_challenge : String
  code_challenge_method : String
deriving DecidableEq

def build_auth_url (cfg : Config) (state code_challenge : String) : AuthUrl :=
  ⟨cfg.clientKey, "code", "user.info.basic video.list", cfg.redirectUri,
   state, code_challenge, "S256"⟩

/-- The `/tiktok/login` and `/tiktok/login-url` handlers
(app/tiktok/routers.py:90-108): generate `state` and the PKCE pair (the
random inputs are passed in explicitly), store `state -> code_verifier`,
and return the authorization URL.  The handlers perform no validation of
the configuration; the code has no failure path. -/
def login (cfg : Config) (cache : PkceCache) (state code_verifier code_challenge : String) :
    AuthUrl × PkceCache :=
  (build_auth_url cfg state code_challenge, cacheSet cache state code_verifier)

/-- The parsed JSON body of the token response: `tok.json()["data"]` with
fields `access_token`, `refresh_token`, `expires_in`.  `none` at a field
models the key being absent (Python `KeyError` on subscription);
`int(...)` coercion of `expires_in` is kept abstract as an `Int`. -/
structure TokData where
  access_token : Option String
  refresh_token : Option String
  expires_in : Option Int
deriving DecidableEq

structure TokResp where
  status : Nat
  text : String
  data : Option TokData
deriving DecidableEq

/-- The `"user"` object of the profile response, with fields `open_id`,
`display_name`, `avatar_url`; `none` at a field models the key being
absent (`user["open_id"]` raises `KeyError("open_id")`, the other two are
read with `.get`). -/
structure ProfUser where
  open_id : Option String
  display_name : Option String
  avatar_url : Option String
deriving DecidableEq

/-- The `"data"` object of the profile response; `user` is `none` when the
`"user"` key is absent (`KeyError("user")`). -/
structure ProfData where
  user : Option ProfUser
deriving DecidableEq

structure ProfResp where
  status : Nat
  text : String
  /-- `uinfo.json()["data"]`: `none` when the `"data"` key is absent
  (`KeyError("data")`). -/
  data : Option ProfData
deriving DecidableEq

/-- A row of the `tiktok_users` table (app/tiktok/models.py). -/
structure TikTokUser where
  id : Nat
  open_id : String
  access_token : String
  refresh_token : Option String
  expires_at : Int
  display_name : Option String
  avatar_url : Option String
deriving DecidableEq

/-- The form body POSTed to the token endpoint (app/tiktok/routers.py:119-126). -/
structure TokenRequest where
  client_key : String
  client_secret : String
  code : String
  grant_type : String
  redirect_uri : String
  code_verifier : String
deriving DecidableEq

def tokenRequest (cfg : Config) (code code_verifier : String) : TokenRequest :=
  ⟨cfg.clientKey, cfg.clientSecret, code, "authorization_code",
   cfg.redirectUri, code_verifier⟩

/-- Python `a or b` on optional strings: `None` and `""` are falsy. -/
def pyOr (a b : Option String) : Option String :=
  match a with
  | none => b
  | some s => if s = "" then b else some s

/-- Update the first row matching `open_id` (the row
`db.query(TikTokUser).filter_by(open_id=...).first()` returns). -/
def updateFirst (oid : String) (f : TikTokUser → TikTokUser) :
    List TikTokUser → List TikTokUser
  | [] => []
  | r :: rs => if r.open_id = oid then f r :: rs else r :: updateFirst oid f rs

/-- The identity upsert of the callback (app/tiktok/routers.py:147-164):
insert a fresh row when `open_id` is new, otherwise update tokens
unconditionally and profile fields through Python `or` (keep the old value
when the new one is `None` or empty). -/
def upsertUser (db : List TikTokUser) (oid access_token : String)
    (refresh_token : Option String) (expires_at : Int)
    (display_name avatar_url : Option String) (nextId : Nat) : List TikTokUser :=
  if (db.find? (fun r => r.open_id = oid)).isSome then
    updateFirst oid
      (fun r =>
        { r with
          access_token := access_token
          refresh_token := refresh_token
          expires_at := expires_at
          display_name := pyOr display_name r.display_name
          avatar_url := pyOr avatar_url r.avatar_url })
      db
  else
    db ++ [⟨nextId, oid, access_token, refresh_token, expires_at,
            display_name, avatar_url⟩]

structure CbOk where
  open_id : String
  expires_at : Int
deriving DecidableEq

deriving instance DecidableEq for Except

structure CbOut where
  result : Except PyErr CbOk
  cache : PkceCache
  users : List TikTokUser
  /-- The token-exchange POST the handler sends, `none` when it fails
  before reaching the network.  The handler makes at most this one
  exchange attempt: there is no retry. -/
  sentTokenRequest : Option TokenRequest
deriving DecidableEq

/-- The exchange-and-upsert part of the callback handler
(app/tiktok/routers.py:117-166), entered once the PKCE session check has
passed.  Note it does not read the configuration: the client credentials
only flow into the outbound request (see `callback`). -/
def exchangeStage (tok : TokResp) (prof : ProfResp) (now : Int)
    (users : List TikTokUser) (nextId : Nat) : Except PyErr CbOk × List TikTokUser :=
  if tok.status ≠ 200 then (.error (.httpException tok.status tok.text), users)
  else
    match tok.data with
    | none => (.error (.keyError "data"), users)
    | some tj =>
      match tj.access_token with
      | none => (.error (.keyError "access_token"), users)
      | some access_token =>
        match tj.expires_in with
        | none => (.error (.keyError "expires_in"), users)
        | some expires_in =>
          let expires_at := now + expires_in
          if prof.status ≠ 200 then
            (.error (.httpException prof.status prof.text), users)
          else
            -- user = uinfo.json()["data"]["user"]; open_id = user["open_id"]
            match prof.data with
            | none => (.error (.keyError "data"), users)
            | some pd =>
              match pd.user with
              | none => (.error (.keyError "user"), users)
              | some u =>
                match u.open_id with
                | none => (.error (.keyError "open_id"), users)
                | some open_id =>
                  let users2 := upsertUser users open_id access_token
                    tj.refresh_token expires_at u.display_name u.avatar_url nextId
                  (.ok ⟨open_id, expires_at⟩, users2)

/-- The `/tiktok/callback` handler (app/tiktok/routers.py:110-166).
The two upstream HTTP responses are inputs; `now` is the wall clock read
for `expires_at`; `nextId` is the primary key the insert would receive. -/
def callback (cfg : Config) (cache : PkceCache) (code : String)
    (state : Option String) (tok : TokResp) (prof : ProfResp) (now : Int)
    (users : List TikTokUser) (nextId : Nat) : CbOut :=
  -- code_verifier = PKCE_CACHE.pop(state or "", None); if not code_verifier: 400
  let popped := cachePop cache (state.getD "")
  match popped.1 with
  | none =>
      ⟨.error (.httpException 400 "Missing PKCE verifier; start login again."),
       popped.2, users, none⟩
  | some code_verifier =>
    if code_verifier = "" then
      ⟨.error (.httpException 400 "Missing PKCE verifier; start login again."),
       popped.2, users, none⟩
    else
      let ex := exchangeStage tok prof now users nextId
      ⟨ex.1, popped.2, ex.2, some (tokenRequest cfg code code_verifier)⟩

/-! ### The ingestion pipeline (`/tiktok/video-list`,
app/tiktok/routers.py:168-211) -/

/-- One element of `data["videos"]` from the remote content API. -/
structure RemoteVideo where
  id : Option String
  video_description : Option String
  title : Option String
  cover_image_url : Option String
  create_time : Option Int
  share_url : Option String
deriving DecidableEq

structure VideoListResp where
  status : Nat
  text : String
  /-- `r.json().get("data", {}).get("videos", [])` -/
  videos : List RemoteVideo
deriving DecidableEq

/-- A row of the `tiktok_videos` table (app/tiktok/models.py). -/
structure VideoRow where
  user_id : Nat
  video_id : Option String
  caption : Option String
  cover_image_url : Option String
  create_time_utc : Option Int
  share_url : Option String
  scanned_at : Int
  score : Nat
  band : String
  factors_caption_length : Nat
  factors_ocr_cover_text : Option String
  detections : List String
  recs : List String
deriving DecidableEq

/-- The per-item loop of the ingest handler (app/tiktok/routers.py:182-209).
Modelled from the spec: the SQLAlchemy session (`app/database.py` is not
among the sources) autoflushes, so a row staged by `db.add` earlier in the
same run is visible to the duplicate check `db.query(...).filter_by(
video_id=vid).first()`; the database is the explicit list of rows. -/
def ingestLoop (userId : Nat) (now : Int) :
    List VideoRow → List RemoteVideo → Nat → Nat × List VideoRow
  | db, [], cnt => (cnt, db)
  | db, v :: rest, cnt =>
    if (db.find? (fun r => r.video_id = v.id)).isSome then
      ingestLoop userId now db rest cnt
    else
      let caption := pyOr v.video_description v.title
      let scored := scoreCaption (some (caption.getD ""))
      let dets := scored.detections
      let recs := recsFromDetections dets
      let row : VideoRow :=
        { user_id := userId
          video_id := v.id
          caption := caption
          cover_image_url := v.cover_image_url
          -- datetime.fromtimestamp(create_time, ...) if create_time else None
          create_time_utc :=
            match v.create_time with
            | some t => if t = 0 then none else some t
            | none => none
          share_url := v.share_url
          scanned_at := now
          score := scored.score
          band := scored.band
          factors_caption_length := scored.caption_length
          factors_ocr_cover_text := scored.ocr_cover_text
          detections := dets
          recs := recs }
      ingestLoop userId now (db ++ [row]) rest (cnt + 1)

/-- `db.query(TikTokUser).order_by(TikTokUser.id.desc()).first()`: the user
with the largest primary key. -/
def lastUser (users : List TikTokUser) : Option TikTokUser :=
  users.foldl
    (fun acc u =>
      match acc with
      | none => some u
      | some a => if u.id > a.id then some u else some a)
    none

/-- The `/tiktok/video-list` handler (app/tiktok/routers.py:168-211),
returning the `{"ingested": cnt}` count and the table after the run. -/
def ingest (users : List TikTokUser) (resp : VideoListResp) (now : Int)
    (db : List VideoRow) : Except PyErr Nat × List VideoRow :=
  match lastUser users with
  | none =>
      (.error (.httpException 400 "No TikTok user connected. Use /tiktok/login first."), db)
  | some user =>
    if resp.status ≠ 200 then (.error (.httpException resp.status resp.text), db)
    else
      let out := ingestLoop user.id now db resp.videos 0
      (.ok out.1, out.2)

/-! ### Lemmas: the PKCE cache -/

theorem find?_mapSet : ∀ (cache : PkceCache) (st v : String),
    cache.any (fun p => p.1 = st) = true →
    (cache.map (fun p => if p.1 = st then (st, v) else p)).find?
      (fun p => p.1 = st) = some (st, v)
  | [], _, _, h => by simp at h
  | q :: qs, st, v, h => by
    by_cases hq : q.1 = st
    · simp [hq]
    · have hqs : qs.any (fun p => p.1 = st) = true := by
        simp only [List.any_cons, Bool.or_eq_true, decide_eq_true_eq] at h
        rcases h with h | h
        · exact absurd h hq
        · simpa using h
      simp only [List.map_cons, if_neg hq]
      rw [List.find?_cons_of_neg _ (by simpa using hq)]
      exact find?_mapSet qs st v hqs

theorem find?_cacheSet (cache : PkceCache) (st v : String) :
    (cacheSet cache st v).find? (fun p => p.1 = st) = some (st, v) := by
  unfold cacheSet
  by_cases h : cache.any (fun p => p.1 = st) = true
  · rw [if_pos h]
    exact find?_mapSet cache st v h
  · rw [if_neg h, List.find?_append]
    have hn : cache.find? (fun p => p.1 = st) = none := by
      rw [List.find?_eq_none]
      intro x hx hpx
      exact h (List.any_eq_true.mpr ⟨x, hx, hpx⟩)
    simp [hn]

/-- The pop of a freshly stored state returns its verifier. -/
theorem cachePop_cacheSet_fst (cache : PkceCache) (st v : String) :
    (cachePop (cacheSet cache st v) st).1 = some v := by
  unfold cachePop
  rw [find?_cacheSet]

/-- After a pop, the state is gone from the cache, found or not. -/
theorem cachePop_snd_find? (cache : PkceCache) (st : String) :
    ((cachePop cache st).2).find? (fun p => p.1 = st) = none := by
  unfold cachePop
  cases h : cache.find? (fun p => p.1 = st) with
  | none => simpa using h
  | some p =>
    simp only
    rw [List.find?_eq_none]
    intro x hx
    have hmem := List.mem_filter.mp hx
    simpa using hmem.2

/-- A pop of an absent state returns nothing. -/
theorem cachePop_fst_of_find?_none (cache : PkceCache) (st : String)
    (h : cache.find? (fun p => p.1 = st) = none) : (cachePop cache st).1 = none := by
  unfold cachePop
  rw [h]

/-! ### Lemmas: the callback's session check -/

/-- Shape of the callback when the state is found with a non-empty
verifier: the exchange is attempted and the popped cache is kept. -/
theorem callback_found (cfg : Config) (cache : PkceCache) (code st : String)
    (tok : TokResp) (prof : ProfResp) (now : Int) (users : List TikTokUser)
    (nid : Nat) (v : String) (hf : (cachePop cache st).1 = some v) (hv : v ≠ "") :
    callback cfg cache code (some st) tok prof now users nid =
      ⟨(exchangeStage tok prof now users nid).1, (cachePop cache st).2,
       (exchangeStage tok prof now users nid).2,
       some (tokenRequest cfg code v)⟩ := by
  unfold callback
  simp only [Option.getD_some]
  rw [hf]
  simp [hv]

/-- Shape of the callback when the state is not in the cache: the 400
session error, and no exchange attempt. -/
theorem callback_notfound (cfg : Config) (cache : PkceCache) (code st : String)
    (tok : TokResp) (prof : ProfResp) (now : Int) (users : List TikTokUser)
    (nid : Nat) (hf : (cachePop cache st).1 = none) :
    callback cfg cache code (some st) tok prof now users nid =
      ⟨.error (.httpException 400 "Missing PKCE verifier; start login again."),
       (cachePop cache st).2, users, none⟩ := by
  unfold callback
  simp only [Option.getD_some]
  rw [hf]

/-- Claim C1: a PKCE session is consumed at most once.  After `login`
stores `state -> code_verifier`, the first callback presenting that state
reaches the token exchange and removes the verifier from the store; any
subsequent callback presenting the same state fails with the 400
session-not-found error and never reaches the exchange — whether the first
callback's exchange succeeded or failed (the upstream responses `tok`,
`prof` of the first callback are arbitrary). -/
theorem pkce_session_single_use
    (cfg cfg2 : Config) (cache : PkceCache) (st v code code2 : String)
    (tok tok2 : TokResp) (prof prof2 : ProfResp) (now now2 : Int)
    (users users2 : List TikTokUser) (nid nid2 : Nat) (hv : v ≠ "") :
    (callback cfg (cacheSet cache st v) code (some st) tok prof now users nid).sentTokenRequest
        = some (tokenRequest cfg code v) ∧
    ((callback cfg (cacheSet cache st v) code (some st) tok prof now users nid).cache).find?
        (fun p => p.1 = st) = none ∧
    (callback cfg2
        (callback cfg (cacheSet cache st v) code (some st) tok prof now users nid).cache
        code2 (some st) tok2 prof2 now2 users2 nid2).result
      = .error (.httpException 400 "Missing PKCE verifier; start login again.") ∧
    (callback cfg2
        (callback cfg (cacheSet cache st v) code (some st) tok prof now users nid).cache
        code2 (some st) tok2 prof2 now2 users2 nid2).sentTokenRequest = none := by
  have h1 := callback_found cfg (cacheSet cache st v) code st tok prof now users nid v
    (cachePop_cacheSet_fst cache st v) hv
  rw [h1]
  have hgone : ((cachePop (cacheSet cache st v) st).2).find? (fun p => p.1 = st) = none :=
    cachePop_snd_find? (cacheSet cache st v) st
  have h2 := callback_notfound cfg2 ((cachePop (cacheSet cache st v) st).2) code2 st
    tok2 prof2 now2 users2 nid2
    (cachePop_fst_of_find?_none _ st hgone)
  exact ⟨rfl, hgone, by rw [h2], by rw [h2]⟩

theorem pkce_session_single_use_witness :
    ("v" : String) ≠ "" ∧
    ((callback defaultConfig (cacheSet [] "s" "v") "c" (some "s")
        ⟨200, "", some ⟨some "tok", some "r", some 3600⟩⟩
        ⟨200, "", some ⟨some ⟨some "u1", some "Nic", none⟩⟩⟩ 0 [] 1).sentTokenRequest
        = some (tokenRequest defaultConfig "c" "v") ∧
      ((callback defaultConfig (cacheSet [] "s" "v") "c" (some "s")
        ⟨200, "", some ⟨some "tok", some "r", some 3600⟩⟩
        ⟨200, "", some ⟨some ⟨some "u1", some "Nic", none⟩⟩⟩ 0 [] 1).cache).find?
        (fun p => p.1 = "s") = none ∧
      (callback defaultConfig
        (callback defaultConfig (cacheSet [] "s" "v") "c" (some "s")
          ⟨200, "", some ⟨some "tok", some "r", some 3600⟩⟩
          ⟨200, "", some ⟨some ⟨some "u1", some "Nic", none⟩⟩⟩ 0 [] 1).cache
        "c2" (some "s") ⟨200, "", none⟩ ⟨200, "", none⟩ 5 [] 2).result
        = .error (.httpException 400 "Missing PKCE verifier; start login again.") ∧
      (callback defaultConfig
        (callback defaultConfig (cacheSet [] "s" "v") "c" (some "s")
          ⟨200, "", some ⟨some "tok", some "r", some 3600⟩⟩
          ⟨200, "", some ⟨some ⟨some "u1", some "Nic", none⟩⟩⟩ 0 [] 1).cache
        "c2" (some "s") ⟨200, "", none⟩ ⟨200, "", none⟩ 5 [] 2).sentTokenRequest = none) :=
  ⟨by decide,
   pkce_session_single_use defaultConfig defaultConfig [] "s" "v" "c" "c2"
     ⟨200, "", some ⟨some "tok", some "r", some 3600⟩⟩ ⟨200, "", none⟩
     ⟨200, "", some ⟨some ⟨some "u1", some "Nic", none⟩⟩⟩ ⟨200, "", none⟩ 0 5 [] [] 1 2
     (by decide)⟩

/-- Claim C3, counterexample: `PKCE_CACHE` stores only `state ->
code_verifier`, with no creation timestamp, and the callback's consume step
applies no TTL check.  Here a session is created and then consumed with the
wall clock at `100000` seconds — far beyond any 10-minute window after any
possible creation time — yet the consume succeeds (the callback returns
`ok`), instead of failing with the 400 session-not-found error the claim
requires. -/
theorem pkce_ttl_counterexample :
    (callback defaultConfig (cacheSet [] "s" "v") "c" (some "s")
        ⟨200, "", some ⟨some "tok", some "r", some 3600⟩⟩
        ⟨200, "", some ⟨some ⟨some "u1", some "Nic", none⟩⟩⟩ 100000 [] 1).result
      = .ok ⟨"u1", 103600⟩ ∧
    (callback defaultConfig (cacheSet [] "s" "v") "c" (some "s")
        ⟨200, "", some ⟨some "tok", some "r", some 3600⟩⟩
        ⟨200, "", some ⟨some ⟨some "u1", some "Nic", none⟩⟩⟩ 100000 [] 1).result
      ≠ .error (.httpException 400 "Missing PKCE verifier; start login again.") := by
  constructor
  · rfl
  · decide

/-- Claim C3 amended: the session store applies no TTL.  A session created
and never consumed succeeds at its first consume no matter how much time
has passed: for any creation time and any elapsed time beyond the claimed
10-minute window, the callback still finds the verifier and proceeds to the
exchange (the wall-clock argument only enters the computed `expires_at`). -/
theorem pkce_no_ttl_consume_succeeds
    (cfg : Config) (cache : PkceCache) (st v code : String) (tok : TokResp)
    (prof : ProfResp) (users : List TikTokUser) (nid : Nat)
    (createdAt elapsed : Int) (hold : 600 < elapsed) (hv : v ≠ "") :
    (callback cfg (cacheSet cache st v) code (some st) tok prof
        (createdAt + elapsed) users nid).sentTokenRequest
      = some (tokenRequest cfg code v) := by
  rw [callback_found cfg (cacheSet cache st v) code st tok prof
    (createdAt + elapsed) users nid v (cachePop_cacheSet_fst cache st v) hv]

theorem pkce_no_ttl_consume_succeeds_witness :
    (600 : Int) < 100000 ∧ ("v" : String) ≠ "" ∧
    (callback defaultConfig (cacheSet [] "s" "v") "c" (some "s") ⟨200, "", none⟩
        ⟨200, "", none⟩ (0 + 100000) [] 1).sentTokenRequest
      = some (tokenRequest defaultConfig "c" "v") :=
  ⟨by decide, by decide,
   pkce_no_ttl_consume_succeeds defaultConfig [] "s" "v" "c" ⟨200, "", none⟩
     ⟨200, "", none⟩ [] 1 0 100000 (by decide) (by decide)⟩

/-- Claim C5, counterexample: with the placeholder configuration (the
`os.getenv` defaults `"xxx"`), a login initiation succeeds and returns the
authorization redirect — no configuration error is raised — and a callback
with a valid session proceeds to send the token-exchange request carrying
the placeholder credentials, completing with `ok` rather than failing
before the network call. -/
theorem config_validation_counterexample :
    login defaultConfig [] "s" "v" "ch" =
      (⟨"xxx", "code", "user.info.basic video.list",
        "http://localhost:8000/tiktok/callback", "s", "ch", "S256"⟩,
       [("s", "v")]) ∧
    (callback defaultConfig [("s", "v")] "c" (some "s")
        ⟨200, "", some ⟨some "tok", some "r", some 3600⟩⟩
        ⟨200, "", some ⟨some ⟨some "u1", some "Nic", none⟩⟩⟩ 0 [] 1).sentTokenRequest
      = some ⟨"xxx", "xxx", "c", "authorization_code",
              "http://localhost:8000/tiktok/callback", "v"⟩ ∧
    (callback defaultConfig [("s", "v")] "c" (some "s")
        ⟨200, "", some ⟨some "tok", some "r", some 3600⟩⟩
        ⟨200, "", some ⟨some ⟨some "u1", some "Nic", none⟩⟩⟩ 0 [] 1).result
      = .ok ⟨"u1", 3600⟩ := by
  refine ⟨rfl, ?_, ?_⟩ <;> rfl

/-- Claim C5 amended: the handlers perform no validation of the client
identifier, client secret or redirect URI.  `login` unconditionally returns
the authorization URL built from whatever values are configured
(placeholders included), and the callback's outcome — result, cache and
user table — is entirely independent of the configuration, which flows
only into the outbound token request. -/
theorem no_config_validation :
    (∀ (cfg : Config) (cache : PkceCache) (st v ch : String),
      login cfg cache st v ch = (build_auth_url cfg st ch, cacheSet cache st v)) ∧
    (∀ (cfg1 cfg2 : Config) (cache : PkceCache) (code : String)
       (state : Option String) (tok : TokResp) (prof : ProfResp) (now : Int)
       (users : List TikTokUser) (nid : Nat),
      (callback cfg1 cache code state tok prof now users nid).result
          = (callback cfg2 cache code state tok prof now users nid).result ∧
      (callback cfg1 cache code state tok prof now users nid).cache
          = (callback cfg2 cache code state tok prof now users nid).cache ∧
      (callback cfg1 cache code state tok prof now users nid).users
          = (callback cfg2 cache code state tok prof now users nid).users) := by
  refine ⟨fun cfg cache st v ch => rfl,
    fun cfg1 cfg2 cache code state tok prof now users nid => ?_⟩
  simp only [callback]
  cases hpop : (cachePop cache (state.getD "")).1 with
  | none => exact ⟨rfl, rfl, rfl⟩
  | some v =>
    by_cases hv : v = "" <;> simp [hv]

/-- Whether an error value carries the upstream HTTP status and body (the
diagnostics the spec requires of an `ExchangeError`): a raised
`HTTPException(status, text)` does, an uncaught `KeyError` does not. -/
def carriesUpstreamDiagnostics : PyErr → Bool
  | .httpException _ _ => true
  | .keyError _ => false

/-- Claim C7, counterexample: a token-exchange response with status 200
whose body is missing the expected `data` field makes the callback fail
with an uncaught `KeyError("data")` — an error that carries neither the
upstream status nor the body — contradicting the claim that every
malformed-body failure yields an `ExchangeError` with upstream status and
body attached. -/
theorem exchange_error_counterexample :
    (callback defaultConfig [("s", "v")] "c" (some "s") ⟨200, "{}", none⟩
        ⟨200, "", none⟩ 0 [] 1).result = .error (.keyError "data") ∧
    carriesUpstreamDiagnostics (.keyError "data") = false := by
  exact ⟨rfl, rfl⟩

/-- Claim C7 amended: the callback checks the exact status 200 (not the
2xx class).  Any response with status ≠ 200 — token exchange or profile
fetch — fails with an error carrying the upstream status and body; a
status-200 response with a malformed body fails with a `KeyError` naming
only the missing field, carrying neither upstream status nor body: `data`,
`access_token` or `expires_in` for the token response, and `data`, `user`
or `open_id` for the profile response.  The handler makes at most one
exchange attempt (`sentTokenRequest` is its only outbound POST); nothing
is retried. -/
theorem exchange_error_reporting (cfg : Config) (cache : PkceCache)
    (code st : String) (tok : TokResp) (prof : ProfResp) (now : Int)
    (users : List TikTokUser) (nid : Nat) (v : String)
    (hf : (cachePop cache st).1 = some v) (hv : v ≠ "") :
    (tok.status ≠ 200 →
      (callback cfg cache code (some st) tok prof now users nid).result
        = .error (.httpException tok.status tok.text) ∧
      carriesUpstreamDiagnostics (.httpException tok.status tok.text) = true) ∧
    (tok.status = 200 → tok.data = none →
      (callback cfg cache code (some st) tok prof now users nid).result
        = .error (.keyError "data") ∧
      carriesUpstreamDiagnostics (.keyError "data") = false) ∧
    (∀ tj, tok.status = 200 → tok.data = some tj → tj.access_token = none →
      (callback cfg cache code (some st) tok prof now users nid).result
        = .error (.keyError "access_token")) ∧
    (∀ tj a, tok.status = 200 → tok.data = some tj → tj.access_token = some a →
      tj.expires_in = none →
      (callback cfg cache code (some st) tok prof now users nid).result
        = .error (.keyError "expires_in")) ∧
    (∀ tj a e, tok.status = 200 → tok.data = some tj → tj.access_token = some a →
      tj.expires_in = some e → prof.status ≠ 200 →
      (callback cfg cache code (some st) tok prof now users nid).result
        = .error (.httpException prof.status prof.text)) ∧
    (∀ tj a e, tok.status = 200 → tok.data = some tj → tj.access_token = some a →
      tj.expires_in = some e → prof.status = 200 → prof.data = none →
      (callback cfg cache code (some st) tok prof now users nid).result
        = .error (.keyError "data") ∧
      carriesUpstreamDiagnostics (.keyError "data") = false) ∧
    (∀ tj a e pd, tok.status = 200 → tok.data = some tj → tj.access_token = some a →
      tj.expires_in = some e → prof.status = 200 → prof.data = some pd →
      pd.user = none →
      (callback cfg cache code (some st) tok prof now users nid).result
        = .error (.keyError "user")) ∧
    (∀ tj a e pd u, tok.status = 200 → tok.data = some tj → tj.access_token = some a →
      tj.expires_in = some e → prof.status = 200 → prof.data = some pd →
      pd.user = some u → u.open_id = none →
      (callback cfg cache code (some st) tok prof now users nid).result
        = .error (.keyError "open_id")) := by
  rw [callback_found cfg cache code st tok prof now users nid v hf hv]
  refine ⟨fun h => ⟨?_, rfl⟩, fun h hd => ⟨?_, rfl⟩,
    fun tj h hd ha => ?_, fun tj a h hd ha he => ?_,
    fun tj a e h hd ha he hp => ?_,
    fun tj a e h hd ha he hp hpd => ⟨?_, rfl⟩,
    fun tj a e pd h hd ha he hp hpd hu => ?_,
    fun tj a e pd u h hd ha he hp hpd hu ho => ?_⟩
  · simp [exchangeStage, h]
  · simp [exchangeStage, h, hd]
  · simp [exchangeStage, h, hd, ha]
  · simp [exchangeStage, h, hd, ha, he]
  · simp [exchangeStage, h, hd, ha, he, hp]
  · simp [exchangeStage, h, hd, ha, he, hp, hpd]
  · simp [exchangeStage, h, hd, ha, he, hp, hpd, hu]
  · simp [exchangeStage, h, hd, ha, he, hp, hpd, hu, ho]

theorem exchange_error_reporting_witness :
    ((cachePop [("s", "v")] "s").1 = some "v" ∧ ("v" : String) ≠ "") ∧
    ((503 : Nat) ≠ 200 →
      (callback defaultConfig [("s", "v")] "c" (some "s") ⟨503, "down", none⟩
          ⟨200, "", none⟩ 0 [] 1).result = .error (.httpException 503 "down") ∧
      carriesUpstreamDiagnostics (.httpException 503 "down") = true) :=
  ⟨⟨by decide, by decide⟩,
   fun h =>
     (exchange_error_reporting defaultConfig [("s", "v")] "c" "s"
       ⟨503, "down", none⟩ ⟨200, "", none⟩ 0 [] 1 "v" (by decide) (by decide)).1 h⟩

/-! ### Lemmas: base64url length and the PKCE pair -/

/-- Characters contributed by a final partial group of `r` bytes (`r =
length mod 3`): none, two, or three. -/
def b64PadLen (r : Nat) : Nat := if r = 0 then 0 else r + 1

theorem b64urlNoPadChars_length : ∀ (bs : List Nat),
    (b64urlNoPadChars bs).length = 4 * (bs.length / 3) + b64PadLen (bs.length % 3)
  | [] => by simp [b64urlNoPadChars, b64PadLen]
  | [_] => by simp [b64urlNoPadChars, b64PadLen]
  | [_, _] => by simp [b64urlNoPadChars, b64PadLen]
  | _ :: _ :: _ :: rest => by
    have ih := b64urlNoPadChars_length rest
    simp only [b64urlNoPadChars, List.length_cons, ih, b64PadLen]
    split <;> split <;> omega

/-- Claim C8: for every run of `_generate_pkce_pair` (over the 64 random
bytes drawn by `secrets.token_urlsafe(64)`), the returned `code_challenge`
is exactly the unpadded base64url encoding of the SHA-256 digest of the
returned `code_verifier`, and the `code_verifier` is 86 ≥ 43 characters
long. -/
theorem pkce_pair_challenge_and_length (rb : List Nat) (h : rb.length = 64) :
    (generate_pkce_pair rb).2
      = b64urlNoPad (sha256 (utf8Bytes (generate_pkce_pair rb).1)) ∧
    43 ≤ (generate_pkce_pair rb).1.length := by
  refine ⟨rfl, ?_⟩
  show 43 ≤ (b64urlNoPadChars rb).length
  rw [b64urlNoPadChars_length, h]
  decide

theorem pkce_pair_challenge_and_length_witness :
    (List.replicate 64 0).length = 64 ∧
    ((generate_pkce_pair (List.replicate 64 0)).2
      = b64urlNoPad (sha256 (utf8Bytes (generate_pkce_pair (List.replicate 64 0)).1)) ∧
     43 ≤ (generate_pkce_pair (List.replicate 64 0)).1.length) :=
  ⟨by simp, pkce_pair_challenge_and_length (List.replicate 64 0) (by simp)⟩

/-! ### Lemmas and claims: the platform-integration scoring engine -/

/-- Claim C10: for an absent (`None`) or empty caption the platform-mode
engine returns score 0, band low, an empty detections list, caption length
0 and a null OCR-cover-text factor; and the recommendations derived from an
empty detections list are exactly the single generic-guidance entry. -/
theorem empty_caption_scoring :
    scoreCaption none = ⟨0, "low", 0, none, []⟩ ∧
    scoreCaption (some "") = ⟨0, "low", 0, none, []⟩ ∧
    recsFromDetections [] =
      ["No issues detected. Keep captions generic and avoid contact/location details."] :=
  ⟨rfl, rfl, rfl⟩

theorem band_chain_characterization (s : Nat) :
    ((if s < 20 then "low" else if s < 50 then "medium" else "high") = "low" ↔ s < 20) ∧
    ((if s < 20 then "low" else if s < 50 then "medium" else "high") = "medium" ↔
      20 ≤ s ∧ s < 50) ∧
    ((if s < 20 then "low" else if s < 50 then "medium" else "high") = "high" ↔ 50 ≤ s) := by
  by_cases h1 : s < 20 <;> by_cases h2 : s < 50 <;> simp [h1, h2] <;> omega

theorem scoreCaption_band_eq (c : Option String) :
    (scoreCaption c).band =
      if (scoreCaption c).score < 20 then "low"
      else if (scoreCaption c).score < 50 then "medium" else "high" := by
  cases c with
  | none => rfl
  | some s =>
    by_cases hs : s = ""
    · subst hs; rfl
    · simp only [scoreCaption, if_neg hs]

set_option maxRecDepth 10000

/-- Claim C4: the platform-integration score is the sum of the fixed
weights of the pattern classes present in the caption — location 40,
contact 25, schedule 20, workplace 15 — with each class contributing at
most once (the detections list holds one tag per present class) and no
cap; the band is low iff score < 20, medium iff 20 ≤ score < 50, high iff
50 ≤ score; and the example caption detects exactly
`{possible_location, schedule_time, workplace}`, scores 75, and bands
high. -/
theorem platform_scoring_weights_bands_example :
    (∀ c : String, c ≠ "" →
      (scoreCaption (some c)).score =
        (if rxSearch LOC_PAT c then 40 else 0) +
        (if rxSearch CONTACT_PAT c then 25 else 0) +
        (if rxSearch TIME_PAT c then 20 else 0) +
        (if rxSearch WORK_PAT c then 15 else 0) ∧
      (scoreCaption (some c)).detections =
        (if rxSearch LOC_PAT c then ["possible_location"] else []) ++
        (if rxSearch CONTACT_PAT c then ["contact_info"] else []) ++
        (if rxSearch TIME_PAT c then ["schedule_time"] else []) ++
        (if rxSearch WORK_PAT c then ["workplace"] else [])) ∧
    (∀ c : Option String,
      ((scoreCaption c).band = "low" ↔ (scoreCaption c).score < 20) ∧
      ((scoreCaption c).band = "medium" ↔
        20 ≤ (scoreCaption c).score ∧ (scoreCaption c).score < 50) ∧
      ((scoreCaption c).band = "high" ↔ 50 ≤ (scoreCaption c).score)) ∧
    ((scoreCaption (some "Working a shift at the campus coffee shop, see you tonight near UNCC!")).score
        = 75 ∧
     (scoreCaption (some "Working a shift at the campus coffee shop, see you tonight near UNCC!")).band
        = "high" ∧
     (scoreCaption (some "Working a shift at the campus coffee shop, see you tonight near UNCC!")).detections
        = ["possible_location", "schedule_time", "workplace"]) := by
  refine ⟨fun c hc => ?_, fun c => ?_, by decide, by decide, by decide⟩
  · simp only [scoreCaption, if_neg hc]
    by_cases h1 : rxSearch LOC_PAT c <;> by_cases h2 : rxSearch CONTACT_PAT c <;>
      by_cases h3 : rxSearch TIME_PAT c <;> by_cases h4 : rxSearch WORK_PAT c <;>
      simp [h1, h2, h3, h4]
  · rw [scoreCaption_band_eq c]
    exact band_chain_characterization (scoreCaption c).score

/-! ### Lemmas and claim: the direct-upload scoring mode -/

theorem counts_val_fold : ∀ (dets : List (String × String)) (cs0 : PyCounts) (k : String),
    (dets.foldl (fun cs d => countsBump cs d.1) cs0).val k
      = cs0.val k + dets.countP (fun d => d.1 = k)
  | [], cs0, k => by simp
  | d :: rest, cs0, k => by
    have ih := counts_val_fold rest (countsBump cs0 d.1) k
    simp only [List.foldl_cons, List.countP_cons] at ih ⊢
    rw [ih]
    by_cases hk : k = d.1
    · simp [countsBump, hk]
      omega
    · simp [countsBump, hk, Ne.symm hk]

theorem counts_keys_fold : ∀ (dets : List (String × String)) (cs0 : PyCounts),
    ∃ ex : List String,
      (dets.foldl (fun cs d => countsBump cs d.1) cs0).keys = cs0.keys ++ ex ∧
      ∀ x ∈ ex, x ∉ cs0.keys
  | [], cs0 => ⟨[], by simp, by simp⟩
  | d :: rest, cs0 => by
    obtain ⟨ex1, hex1, hnx1⟩ := counts_keys_fold rest (countsBump cs0 d.1)
    by_cases hc : d.1 ∈ cs0.keys
    · refine ⟨ex1, ?_, ?_⟩
      · simpa [List.foldl_cons, countsBump, hc] using hex1
      · intro x hx
        have hni := hnx1 x hx
        simpa [countsBump, hc] using hni
    · refine ⟨d.1 :: ex1, ?_, ?_⟩
      · simp only [List.foldl_cons]
        rw [hex1]
        simp [countsBump, hc]
      · intro x hx
        rcases List.mem_cons.mp hx with rfl | hx1
        · exact hc
        · have hni := hnx1 x hx1
          simp [countsBump, hc] at hni
          exact hni.1

theorem WEIGHTS_eq_zero (x : String) (h1 : x ≠ "email") (h2 : x ≠ "phone")
    (h3 : x ≠ "address") (h4 : x ≠ "gps") : WEIGHTS x = 0 := by
  simp [WEIGHTS, h1, h2, h3, h4]

theorem foldl_zero_weights (f : String → Nat) : ∀ (ks : List String) (a : Nat),
    (∀ k ∈ ks, WEIGHTS k = 0) →
    ks.foldl (fun acc k => if f k > 0 then acc + WEIGHTS k * min (f k) 3 else acc) a = a
  | [], _, _ => rfl
  | k :: ks, a, h => by
    have hk := h k (by simp)
    have hrest := foldl_zero_weights f ks
      (if f k > 0 then a + WEIGHTS k * min (f k) 3 else a)
      (fun x hx => h x (by simp [hx]))
    simp only [List.foldl_cons] at hrest ⊢
    rw [hrest, hk]
    by_cases hf : f k > 0 <;> simp [hf]

theorem score_if_collapse (a w c : Nat) :
    (if c > 0 then a + w * min c 3 else a) = a + w * min c 3 := by
  cases c <;> simp

set_option maxRecDepth 10000

/-- Claim C9: in the direct-upload scoring mode the score is the sum over
the four detector types of weight times `min(count, 3)` — email 20, phone
20, address 30, gps 40 (unknown detector types carry weight 0 and
contribute nothing) — the band is LOW below 60, MEDIUM from 60 below 90,
HIGH from 90; and the example caption yields exactly one email and one
phone detection, score 40, band LOW. -/
theorem upload_scoring_weights_bands_example :
    (∀ dets : List (String × String),
      (score_from_detections dets).1 =
        20 * min (dets.countP (fun d => d.1 = "email")) 3 +
        20 * min (dets.countP (fun d => d.1 = "phone")) 3 +
        30 * min (dets.countP (fun d => d.1 = "address")) 3 +
        40 * min (dets.countP (fun d => d.1 = "gps")) 3) ∧
    (∀ dets : List (String × String),
      ((score_from_detections dets).2 = "LOW" ↔ (score_from_detections dets).1 < 60) ∧
      ((score_from_detections dets).2 = "MEDIUM" ↔
        60 ≤ (score_from_detections dets).1 ∧ (score_from_detections dets).1 < 90) ∧
      ((score_from_detections dets).2 = "HIGH" ↔ 90 ≤ (score_from_detections dets).1)) ∧
    (scan_caption "Call me at 704-555-0199 or email a@b.com" =
        [("email", "a@b.com"), ("phone", "704-555-0199")] ∧
     score_from_detections (scan_caption "Call me at 704-555-0199 or email a@b.com") =
        (40, "LOW")) := by
  refine ⟨fun dets => ?_, fun dets => ?_, by decide, by decide⟩
  · unfold score_from_detections
    obtain ⟨ex, hex, hnx⟩ := counts_keys_fold dets countsInit
    have hzero : ∀ k ∈ ex,
        WEIGHTS k = 0 := by
      intro k hk
      have hni := hnx k hk
      simp only [countsInit] at hni
      simp only [List.mem_cons, List.mem_singleton, not_or] at hni
      exact WEIGHTS_eq_zero k hni.1 hni.2.1 hni.2.2.1 (by simpa using hni.2.2.2)
    have hv : ∀ k, (dets.foldl (fun cs d => countsBump cs d.1) countsInit).val k
        = dets.countP (fun d => d.1 = k) := by
      intro k
      have h := counts_val_fold dets countsInit k
      simpa [countsInit] using h
    simp only [hex]
    show (((["email", "phone", "address", "gps"] : List String) ++ ex).foldl _ 0) = _
    rw [List.foldl_append]
    simp only [List.foldl_cons, List.foldl_nil]
    rw [foldl_zero_weights _ ex _ hzero]
    simp only [hv, score_if_collapse]
    simp [WEIGHTS]
  · have hb : (score_from_detections dets).2 =
        if (score_from_detections dets).1 ≥ 90 then "HIGH"
        else if (score_from_detections dets).1 ≥ 60 then "MEDIUM" else "LOW" := rfl
    rw [hb]
    by_cases h1 : (score_from_detections dets).1 ≥ 90 <;>
      by_cases h2 : (score_from_detections dets).1 ≥ 60 <;>
      simp [h1, h2] <;> omega

/-! ### Lemmas and claim: the identity upsert -/

theorem updateFirst_find? (oid : String) (f : TikTokUser → TikTokUser)
    (hf : ∀ r, (f r).open_id = r.open_id) :
    ∀ (db : List TikTokUser) (r : TikTokUser),
    db.find? (fun x => x.open_id = oid) = some r →
    (updateFirst oid f db).find? (fun x => x.open_id = oid) = some (f r)
  | [], r, h => by simp at h
  | q :: qs, r, h => by
    by_cases hq : q.open_id = oid
    · rw [List.find?_cons_of_pos _ (by simpa using hq)] at h
      obtain rfl : q = r := by simpa using h
      unfold updateFirst
      rw [if_pos hq]
      rw [List.find?_cons_of_pos _ (by simpa using (hf q).trans hq)]
    · rw [List.find?_cons_of_neg _ (by simpa using hq)] at h
      unfold updateFirst
      rw [if_neg hq]
      rw [List.find?_cons_of_neg _ (by simpa using hq)]
      exact updateFirst_find? oid f hf qs r h

theorem updateFirst_map_open_id (oid : String) (f : TikTokUser → TikTokUser)
    (hf : ∀ r, (f r).open_id = r.open_id) :
    ∀ db : List TikTokUser,
    (updateFirst oid f db).map (fun r => r.open_id) = db.map (fun r => r.open_id)
  | [] => rfl
  | q :: qs => by
    unfold updateFirst
    by_cases hq : q.open_id = oid
    · rw [if_pos hq]
      simp [hf q]
    · rw [if_neg hq]
      simp [updateFirst_map_open_id oid f hf qs]

theorem upsertUser_insert (db : List TikTokUser) (oid a : String)
    (rt : Option String) (e : Int) (dn au : Option String) (nid : Nat)
    (h : db.find? (fun x => x.open_id = oid) = none) :
    upsertUser db oid a rt e dn au nid = db ++ [⟨nid, oid, a, rt, e, dn, au⟩] := by
  unfold upsertUser
  rw [h]
  rfl

theorem upsertUser_find?_insert (db : List TikTokUser) (oid a : String)
    (rt : Option String) (e : Int) (dn au : Option String) (nid : Nat)
    (h : db.find? (fun x => x.open_id = oid) = none) :
    (upsertUser db oid a rt e dn au nid).find? (fun x => x.open_id = oid)
      = some ⟨nid, oid, a, rt, e, dn, au⟩ := by
  rw [upsertUser_insert db oid a rt e dn au nid h, List.find?_append, h]
  simp

theorem upsertUser_update (db : List TikTokUser) (oid a : String)
    (rt : Option String) (e : Int) (dn au : Option String) (nid : Nat)
    (r : TikTokUser) (h : db.find? (fun x => x.open_id = oid) = some r) :
    (upsertUser db oid a rt e dn au nid).find? (fun x => x.open_id = oid)
      = some { r with
          access_token := a, refresh_token := rt, expires_at := e,
          display_name := pyOr dn r.display_name,
          avatar_url := pyOr au r.avatar_url } := by
  unfold upsertUser
  rw [h]
  simp only [Option.isSome_some, if_true]
  exact updateFirst_find? oid
    (fun x =>
      { x with
        access_token := a, refresh_token := rt, expires_at := e,
        display_name := pyOr dn x.display_name,
        avatar_url := pyOr au x.avatar_url })
    (fun x => rfl) db r h

theorem upsertUser_display_some (db : List TikTokUser) (oid a : String)
    (rt : Option String) (e : Int) (n : String) (au : Option String)
    (nid : Nat) (hn : n ≠ "") :
    ∃ r1, (upsertUser db oid a rt e (some n) au nid).find?
        (fun x => x.open_id = oid) = some r1 ∧ r1.display_name = some n := by
  cases hfind : db.find? (fun x => x.open_id = oid) with
  | none =>
    exact ⟨_, upsertUser_find?_insert db oid a rt e (some n) au nid hfind, rfl⟩
  | some r =>
    refine ⟨_, upsertUser_update db oid a rt e (some n) au nid r hfind, ?_⟩
    simp [pyOr, hn]

theorem upsertUser_nodup (db : List TikTokUser) (oid a : String)
    (rt : Option String) (e : Int) (dn au : Option String) (nid : Nat)
    (h : (db.map (fun r => r.open_id)).Nodup) :
    ((upsertUser db oid a rt e dn au nid).map (fun r => r.open_id)).Nodup := by
  unfold upsertUser
  by_cases hf : (db.find? (fun x => x.open_id = oid)).isSome
  · rw [if_pos hf]
    rw [updateFirst_map_open_id oid
      (fun x =>
        { x with
          access_token := a, refresh_token := rt, expires_at := e,
          display_name := pyOr dn x.display_name,
          avatar_url := pyOr au x.avatar_url })
      (fun x => rfl) db]
    exact h
  · rw [if_neg hf]
    have hmem : oid ∉ db.map (fun r => r.open_id) := by
      intro hm
      rcases List.mem_map.mp hm with ⟨r, hr, hro⟩
      exact hf (List.find?_isSome.mpr ⟨r, hr, by simpa using hro⟩)
    simp only [List.map_append, List.map_cons, List.map_nil]
    rw [List.nodup_append]
    exact ⟨h, List.nodup_singleton oid, by simpa [List.disjoint_singleton] using hmem⟩

/-- Claim C6: the identity upsert.  A fresh `open_id` inserts a row taking
the profile fields verbatim; an existing `open_id` has its first matching
row updated — `access_token`, `refresh_token`, `expires_at` replaced
unconditionally, `display_name`/`avatar_url` through Python `or` (a
non-empty new value replaces, `None` or the empty string preserves).
Consequently a second upsert with the same non-empty display name leaves it
unchanged, a second upsert with an absent or empty display name preserves
the first value, and uniqueness of `open_id` across rows is preserved. -/
theorem identity_upsert_contract :
    (∀ (db : List TikTokUser) (oid a : String) (rt : Option String) (e : Int)
       (dn au : Option String) (nid : Nat),
      db.find? (fun x => x.open_id = oid) = none →
      upsertUser db oid a rt e dn au nid = db ++ [⟨nid, oid, a, rt, e, dn, au⟩]) ∧
    (∀ (db : List TikTokUser) (oid a : String) (rt : Option String) (e : Int)
       (dn au : Option String) (nid : Nat) (r : TikTokUser),
      db.find? (fun x => x.open_id = oid) = some r →
      (upsertUser db oid a rt e dn au nid).find? (fun x => x.open_id = oid)
        = some { r with
            access_token := a, refresh_token := rt, expires_at := e,
            display_name := pyOr dn r.display_name,
            avatar_url := pyOr au r.avatar_url }) ∧
    (∀ (n : String) (x : Option String), n ≠ "" → pyOr (some n) x = some n) ∧
    (∀ x : Option String, pyOr none x = x) ∧
    (∀ x : Option String, pyOr (some "") x = x) ∧
    (∀ (db : List TikTokUser) (oid a a2 : String) (rt rt2 : Option String)
       (e e2 : Int) (au au2 : Option String) (nid nid2 : Nat) (n : String)
       (dn2 : Option String),
      n ≠ "" → (dn2 = none ∨ dn2 = some "" ∨ dn2 = some n) →
      ∃ r2, (upsertUser (upsertUser db oid a rt e (some n) au nid)
          oid a2 rt2 e2 dn2 au2 nid2).find? (fun x => x.open_id = oid)
          = some r2 ∧ r2.display_name = some n) ∧
    (∀ (db : List TikTokUser) (oid a : String) (rt : Option String) (e : Int)
       (dn au : Option String) (nid : Nat),
      (db.map (fun r => r.open_id)).Nodup →
      ((upsertUser db oid a rt e dn au nid).map (fun r => r.open_id)).Nodup) := by
  refine ⟨upsertUser_insert, upsertUser_update,
    fun n x hn => by simp [pyOr, hn], fun x => rfl, fun x => by simp [pyOr],
    ?_, upsertUser_nodup⟩
  intro db oid a a2 rt rt2 e e2 au au2 nid nid2 n dn2 hn hdn2
  obtain ⟨r1, hr1, hd1⟩ := upsertUser_display_some db oid a rt e n au nid hn
  refine ⟨_, upsertUser_update _ oid a2 rt2 e2 dn2 au2 nid2 r1 hr1, ?_⟩
  rw [hd1]
  rcases hdn2 with rfl | rfl | rfl
  · rfl
  · simp [pyOr]
  · simp [pyOr, hn]

/-! ### Lemmas and claim: ingestion idempotence -/

/-- The number of ids in a page that are new relative to `seen`, counting
each distinct id once (mirrors the loop's skip-then-insert discipline). -/
def newCount (seen : List (Option String)) : List (Option String) → Nat
  | [] => 0
  | i :: rest => if i ∈ seen then newCount seen rest else newCount (i :: seen) rest + 1

theorem newCount_congr : ∀ (l : List (Option String)) (s t : List (Option String)),
    (∀ x, x ∈ s ↔ x ∈ t) → newCount s l = newCount t l
  | [], _, _, _ => rfl
  | i :: rest, s, t, h => by
    by_cases hi : i ∈ s
    · rw [newCount, newCount, if_pos hi, if_pos ((h i).mp hi)]
      exact newCount_congr rest s t h
    · rw [newCount, newCount, if_neg hi, if_neg (fun hit => hi ((h i).mpr hit))]
      rw [newCount_congr rest (i :: s) (i :: t) (fun x => by simp [h x])]

theorem newCount_toFinset : ∀ (l : List (Option String)) (seen : List (Option String)),
    newCount seen l = (l.toFinset \ seen.toFinset).card
  | [], seen => by simp [newCount]
  | i :: rest, seen => by
    rw [newCount]
    by_cases hi : i ∈ seen
    · rw [if_pos hi, newCount_toFinset rest seen]
      rw [List.toFinset_cons, Finset.insert_sdiff_of_mem _ (List.mem_toFinset.mpr hi)]
    · rw [if_neg hi, newCount_toFinset rest (i :: seen)]
      rw [List.toFinset_cons, List.toFinset_cons,
        Finset.sdiff_insert, Finset.insert_sdiff_of_not_mem _ (by simpa using hi)]
      set X := rest.toFinset \ seen.toFinset with hX
      by_cases hiX : i ∈ X
      · rw [Finset.insert_eq_self.mpr hiX]
        have hcard := Finset.card_erase_of_mem hiX
        have hpos : 0 < X.card := Finset.card_pos.mpr ⟨i, hiX⟩
        omega
      · rw [Finset.erase_eq_of_not_mem hiX, Finset.card_insert_of_not_mem hiX]

theorem find?_vid_isSome (db : List VideoRow) (i : Option String) :
    (db.find? (fun r => r.video_id = i)).isSome = true ↔
      i ∈ db.map (fun r => r.video_id) := by
  rw [List.find?_isSome]
  constructor
  · rintro ⟨r, hr, hri⟩
    exact List.mem_map.mpr ⟨r, hr, by simpa using hri⟩
  · intro hm
    rcases List.mem_map.mp hm with ⟨r, hr, hri⟩
    exact ⟨r, hr, by simpa using hri⟩

theorem ingestLoop_count (uid : Nat) (now : Int) :
    ∀ (page : List RemoteVideo) (db : List VideoRow) (cnt : Nat),
    (ingestLoop uid now db page cnt).1
      = cnt + newCount (db.map (fun r => r.video_id)) (page.map (fun v => v.id))
  | [], db, cnt => by simp [ingestLoop, newCount]
  | v :: rest, db, cnt => by
    by_cases hmem : v.id ∈ db.map (fun r => r.video_id)
    · have hf : (db.find? (fun r => r.video_id = v.id)).isSome = true :=
        (find?_vid_isSome db v.id).mpr hmem
      rw [ingestLoop, if_pos hf, ingestLoop_count uid now rest db cnt]
      rw [List.map_cons, newCount, if_pos hmem]
    · have hf : ¬ (db.find? (fun r => r.video_id = v.id)).isSome = true := by
        rw [find?_vid_isSome db v.id]
        exact hmem
      rw [ingestLoop, if_neg hf]
      rw [ingestLoop_count uid now rest _ (cnt + 1)]
      rw [List.map_cons, newCount, if_neg hmem]
      simp only [List.map_append, List.map_cons, List.map_nil]
      rw [newCount_congr (rest.map (fun v => v.id))
        (db.map (fun r => r.video_id) ++ [v.id])
        (v.id :: db.map (fun r => r.video_id)) (fun x => by simp [or_comm])]
      omega

theorem ingestLoop_keys_mono (uid : Nat) (now : Int) :
    ∀ (page : List RemoteVideo) (db : List VideoRow) (cnt : Nat) (x : Option String),
    x ∈ db.map (fun r => r.video_id) →
    x ∈ ((ingestLoop uid now db page cnt).2).map (fun r => r.video_id)
  | [], db, cnt, x, hx => by simpa [ingestLoop] using hx
  | v :: rest, db, cnt, x, hx => by
    by_cases hf : (db.find? (fun r => r.video_id = v.id)).isSome = true
    · rw [ingestLoop, if_pos hf]
      exact ingestLoop_keys_mono uid now rest db cnt x hx
    · rw [ingestLoop, if_neg hf]
      exact ingestLoop_keys_mono uid now rest _ (cnt + 1) x (by simp [hx])

theorem ingestLoop_page_keys (uid : Nat) (now : Int) :
    ∀ (page : List RemoteVideo) (db : List VideoRow) (cnt : Nat),
    ∀ v ∈ page, v.id ∈ ((ingestLoop uid now db page cnt).2).map (fun r => r.video_id)
  | [], _, _, v, hv => by simp at hv
  | w :: rest, db, cnt, v, hv => by
    rcases List.mem_cons.mp hv with rfl | hv1
    · by_cases hf : (db.find? (fun r => r.video_id = v.id)).isSome = true
      · rw [ingestLoop, if_pos hf]
        exact ingestLoop_keys_mono uid now rest db cnt v.id
          ((find?_vid_isSome db v.id).mp hf)
      · rw [ingestLoop, if_neg hf]
        exact ingestLoop_keys_mono uid now rest _ (cnt + 1) v.id (by simp)
    · by_cases hf : (db.find? (fun r => r.video_id = w.id)).isSome = true
      · rw [ingestLoop, if_pos hf]
        exact ingestLoop_page_keys uid now rest db cnt v hv1
      · rw [ingestLoop, if_neg hf]
        exact ingestLoop_page_keys uid now rest _ (cnt + 1) v hv1

theorem ingestLoop_all_present (uid : Nat) (now : Int) :
    ∀ (page : List RemoteVideo) (db : List VideoRow) (cnt : Nat),
    (∀ v ∈ page, v.id ∈ db.map (fun r => r.video_id)) →
    ingestLoop uid now db page cnt = (cnt, db)
  | [], db, cnt, _ => rfl
  | v :: rest, db, cnt, h => by
    have hf : (db.find? (fun r => r.video_id = v.id)).isSome = true :=
      (find?_vid_isSome db v.id).mpr (h v (by simp))
    rw [ingestLoop, if_pos hf]
    exact ingestLoop_all_present uid now rest db cnt (fun w hw => h w (by simp [hw]))

theorem ingestLoop_nodup (uid : Nat) (now : Int) :
    ∀ (page : List RemoteVideo) (db : List VideoRow) (cnt : Nat),
    (db.map (fun r => r.video_id)).Nodup →
    (((ingestLoop uid now db page cnt).2).map (fun r => r.video_id)).Nodup
  | [], db, cnt, h => by simpa [ingestLoop] using h
  | v :: rest, db, cnt, h => by
    by_cases hf : (db.find? (fun r => r.video_id = v.id)).isSome = true
    · rw [ingestLoop, if_pos hf]
      exact ingestLoop_nodup uid now rest db cnt h
    · rw [ingestLoop, if_neg hf]
      refine ingestLoop_nodup uid now rest _ (cnt + 1) ?_
      rw [List.map_append]
      rw [List.nodup_append]
      have hmem : v.id ∉ db.map (fun r => r.video_id) := by
        rw [← find?_vid_isSome db v.id]
        simpa using hf
      exact ⟨h, List.nodup_singleton _, by simpa [List.disjoint_singleton] using hmem⟩

/-- Claim C2: ingestion is idempotent.  With a connected user and a 200
content response, the first run ingests exactly the number of distinct
`video_id`s of the page not already stored, the second run over the same
page ingests 0 and leaves the table unchanged, an already-present item is
skipped outright (the loop step neither mutates the table nor increments
the count), and uniqueness of stored `video_id`s is preserved.  The
hypothesis that every page item carries an id keeps the model inside the
domain of the `NOT NULL` column constraint of `tiktok_videos.video_id`. -/
theorem ingest_idempotent
    (users : List TikTokUser) (resp : VideoListResp) (now now2 : Int)
    (db : List VideoRow) (u : TikTokUser)
    (hu : lastUser users = some u) (hstatus : resp.status = 200)
    (hids : ∀ v ∈ resp.videos, v.id ≠ none) :
    (ingest users resp now db).1 =
      .ok (((resp.videos.map (fun v => v.id)).toFinset \
            (db.map (fun r => r.video_id)).toFinset).card) ∧
    (ingest users resp now2 (ingest users resp now db).2).1 = .ok 0 ∧
    (ingest users resp now2 (ingest users resp now db).2).2 =
      (ingest users resp now db).2 ∧
    (∀ (db2 : List VideoRow) (v : RemoteVideo) (rest : List RemoteVideo) (cnt : Nat),
      (db2.find? (fun r => r.video_id = v.id)).isSome = true →
      ingestLoop u.id now db2 (v :: rest) cnt = ingestLoop u.id now db2 rest cnt) ∧
    ((db.map (fun r => r.video_id)).Nodup →
      (((ingest users resp now db).2).map (fun r => r.video_id)).Nodup) := by
  have hingest : ∀ (n : Int) (d : List VideoRow),
      ingest users resp n d =
        (.ok (ingestLoop u.id n d resp.videos 0).1,
         (ingestLoop u.id n d resp.videos 0).2) := by
    intro n d
    unfold ingest
    rw [hu]
    simp [hstatus]
  have hall : ∀ v ∈ resp.videos,
      v.id ∈ ((ingestLoop u.id now db resp.videos 0).2).map (fun r => r.video_id) :=
    fun v hv => ingestLoop_page_keys u.id now resp.videos db 0 v hv
  refine ⟨?_, ?_, ?_, ?_, ?_⟩
  · rw [hingest now db]
    simp only
    rw [ingestLoop_count u.id now resp.videos db 0, newCount_toFinset]
    simp
  · rw [hingest now db, hingest now2]
    simp only
    rw [ingestLoop_all_present u.id now2 resp.videos _ 0 hall]
  · rw [hingest now db, hingest now2]
    simp only
    rw [ingestLoop_all_present u.id now2 resp.videos _ 0 hall]
  · intro db2 v rest cnt hf
    rw [ingestLoop, if_pos hf]
  · rw [hingest now db]
    exact fun h => ingestLoop_nodup u.id now resp.videos db 0 h

theorem ingest_idempotent_witness :
    lastUser [⟨1, "u", "t", none, 0, none, none⟩] =
      some ⟨1, "u", "t", none, 0, none, none⟩ ∧
    (200 : Nat) = 200 ∧
    (∀ v ∈ ([⟨some "v1", none, none, none, none, none⟩] : List RemoteVideo), v.id ≠ none) ∧
    ((ingest [⟨1, "u", "t", none, 0, none, none⟩]
        ⟨200, "", [⟨some "v1", none, none, none, none, none⟩]⟩ 7 []).1 =
      .ok ((([⟨some "v1", none, none, none, none, none⟩].map
          (fun v => RemoteVideo.id v)).toFinset \
        (([] : List VideoRow).map (fun r => r.video_id)).toFinset).card) ∧
    (ingest [⟨1, "u", "t", none, 0, none, none⟩]
        ⟨200, "", [⟨some "v1", none, none, none, none, none⟩]⟩ 8
        (ingest [⟨1, "u", "t", none, 0, none, none⟩]
          ⟨200, "", [⟨some "v1", none, none, none, none, none⟩]⟩ 7 []).2).1 = .ok 0) := by
  have h := ingest_idempotent [⟨1, "u", "t", none, 0, none, none⟩]
    ⟨200, "", [⟨some "v1", none, none, none, none, none⟩]⟩ 7 8 []
    ⟨1, "u", "t", none, 0, none, none⟩ (by decide) rfl (by decide)
  exact ⟨by decide, rfl, by decide, h.1, h.2.1⟩

end RiskScan
